import Mathlib

/-!
# Verification of the Proctoring Backend core

Shallow embedding of the event-scoring, report-generation and storage
logic of the proctoring backend (`app/report.py`, `app/storage.py`,
`app/main.py`), together with proofs of the specified properties.

Timestamps are modelled as integer microsecond counts (the resolution of
Python `datetime`); byte strings are modelled as lists of naturals.
-/

namespace Proctoring

/-- `models.Event` (pydantic model, `app/models.py`). -/
structure Event where
  id : Option String
  session_id : String
  event_type : String
  message : Option String
  timestamp : Int
deriving DecidableEq, Repr

/-- `models.Session` (pydantic model, `app/models.py`). -/
structure Session where
  id : Option String
  candidate_name : String
  start_time : Int
  end_time : Option Int
  video_path : Option String
deriving DecidableEq, Repr

/-- First-match lookup in an association list, as a Python `dict` /
Mongo `find_one` access. -/
def assocLookup {α : Type} : List (String × α) → String → Option α
  | [], _ => none
  | (k, v) :: rest, s => if k = s then some v else assocLookup rest s

/-- The 7 fixed category tags, in the order they appear in the `counts`
dict literal of `summarize_events` (`app/report.py`). -/
def categoryTags : List String :=
  ["focus_lost", "looking_away", "no_face", "multiple_faces",
   "phone_detected", "notes_detected", "device_detected"]

/-- `EVENT_WEIGHTS.get(k, 0)` (`app/report.py`): the fixed weight table,
defaulting to 0 for keys absent from the table. -/
def eventWeight (k : String) : Nat :=
  if k = "focus_lost" then 2
  else if k = "looking_away" then 2
  else if k = "no_face" then 5
  else if k = "multiple_faces" then 10
  else if k = "phone_detected" then 10
  else if k = "notes_detected" then 5
  else if k = "device_detected" then 8
  else 0

/-- An `EventCounts` mapping: a Python dict from category tag to count,
modelled as an association list preserving insertion order. -/
def Counts : Type := List (String × Nat)

/-- The zero-initialised counts dict of `summarize_events`. -/
def initCounts : Counts :=
  [("focus_lost", 0), ("looking_away", 0), ("no_face", 0),
   ("multiple_faces", 0), ("phone_detected", 0), ("notes_detected", 0),
   ("device_detected", 0)]

/-- Python `e.event_type in counts` (dict key membership). -/
def hasKey (c : Counts) (k : String) : Prop := (assocLookup c k).isSome = true

instance (c : Counts) (k : String) : Decidable (hasKey c k) := by
  unfold hasKey; infer_instance

/-- Python `counts[key] += 1`. -/
def incrKey (c : Counts) (k : String) : Counts :=
  c.map (fun p => if p.1 = k then (p.1, p.2 + 1) else p)

/-- The loop body of `summarize_events`: `key = e.event_type if
e.event_type in counts else None; if key: counts[key] += 1` (the `if key:`
truthiness test also rejects the empty string). -/
def stepEvent (c : Counts) (e : Event) : Counts :=
  if hasKey c e.event_type ∧ e.event_type ≠ "" then incrKey c e.event_type else c

/-- `summarize_events` (`app/report.py`). -/
def summarize_events (events : List Event) : Counts :=
  events.foldl stepEvent initCounts

/-- `compute_integrity_score` (`app/report.py`): `score = 100`, subtract
`v * EVENT_WEIGHTS.get(k, 0)` for each item of the counts dict, then
`max(0, score)`. -/
def compute_integrity_score (counts : Counts) : Int :=
  max 0 (counts.foldl (fun score p => score - (p.2 : Int) * (eventWeight p.1 : Int)) 100)

/-- A counts mapping over exactly the 7 fixed categories, in the fixed
dict order (the shape every `summarize_events` result has). -/
def mkCounts (fl la nf mf pd nd dd : Nat) : Counts :=
  [("focus_lost", fl), ("looking_away", la), ("no_face", nf),
   ("multiple_faces", mf), ("phone_detected", pd), ("notes_detected", nd),
   ("device_detected", dd)]

/-- Number of events of a given type. -/
def typeCount (events : List Event) (tag : String) : Nat :=
  events.countP (fun e => e.event_type = tag)

/-- The key list of a counts dict (Python `counts.keys()`, in insertion
order). -/
def countsKeys (c : Counts) : List String := c.map Prod.fst

/-- Python `sum(counts.values())`. -/
def sumCounts (c : Counts) : Nat := (c.map Prod.snd).sum

/-- Python `counts.get(k, 0)` as used in `get_report` (`app/main.py`). -/
def getCount (c : Counts) (k : String) : Nat := (assocLookup c k).getD 0

/-- The aggregate suspicious count of `get_report` (`app/main.py`):
`sum([counts.get("multiple_faces", 0), counts.get("phone_detected", 0),
counts.get("notes_detected", 0), counts.get("device_detected", 0)])`. -/
def suspiciousTotal (counts : Counts) : Nat :=
  getCount counts "multiple_faces" + getCount counts "phone_detected" +
    getCount counts "notes_detected" + getCount counts "device_detected"

/-- The duration computation of `write_html_report` / the HTML renderer
(`app/report.py`): 0 unless both end and start time are set (start time is
always set on the pydantic model), else
`int((end_time - start_time).total_seconds())`, i.e. the microsecond
difference divided by 10^6 rounded toward zero (Python `int()` truncation
of `total_seconds()`). -/
def report_duration_seconds (session : Session) : Int :=
  match session.end_time with
  | some en => Int.tdiv (en - session.start_time) 1000000
  | none => 0

/-- The duration computation of `get_report` (`app/main.py`):
`if session_doc.get("start_time") and session_doc.get("end_time")`, else 0,
with the same `int((end - start).total_seconds())` expression. -/
def api_duration_seconds (start_time end_time : Option Int) : Int :=
  match start_time, end_time with
  | some st, some en => Int.tdiv (en - st) 1000000
  | _, _ => 0

/-- Modelled from the spec: `build_csv_report_content` is imported by
`app/main.py` from `app/report.py` but is absent from the source tree.
Per spec §4.3, the CSV document is a header row plus one data row
carrying the candidate name, session id, duration, all 7 category counts,
the aggregate suspicious-event count and the integrity score. Rows are
modelled as lists of cells. -/
def build_csv_report_content (session : Session) (counts : Counts)
    (integrity_score : Int) : List (List String) :=
  [["candidate_name", "session_id", "interview_duration_seconds",
    "focus_lost_count", "looking_away_count", "no_face_count",
    "multiple_faces_count", "phone_detected_count", "notes_detected_count",
    "device_detected_count", "suspicious_events_count", "integrity_score"],
   [session.candidate_name, session.id.getD "",
    toString (report_duration_seconds session),
    toString (getCount counts "focus_lost"),
    toString (getCount counts "looking_away"),
    toString (getCount counts "no_face"),
    toString (getCount counts "multiple_faces"),
    toString (getCount counts "phone_detected"),
    toString (getCount counts "notes_detected"),
    toString (getCount counts "device_detected"),
    toString (suspiciousTotal counts),
    toString integrity_score]]

/-! ## Storage backends (`app/storage.py`)

File and drive contents are maps from string keys to byte strings (lists
of naturals); writing prepends and reading takes the first match, so a
later write of the same key shadows the earlier one. -/

/-- Python `str.startswith(pattern)` on character lists (pattern first). -/
def charsStartWith : List Char → List Char → Bool
  | [], _ => true
  | _ :: _, [] => false
  | p :: ps, c :: cs => if p = c then charsStartWith ps cs else false

/-- Python `key.startswith(pat)`. -/
def strStartsWith (s pat : String) : Bool := charsStartWith pat.data s.data

/-- The remainder `key.split("/", 1)[1]` once a prefix of `n` characters
ending in the first `"/"` has been recognised, i.e. dropping `n`
characters. -/
def strDropChars (s : String) (n : Nat) : String := String.mk (s.data.drop n)

/-- The state of a `LocalStorage` instance: the two configured directories
and the files written so far (path ↦ content). -/
structure LocalState where
  video_dir : String
  report_dir : String
  files : List (String × List Nat)
deriving DecidableEq, Repr

/-- `pathlib`'s `dir / rest` for a relative `rest` (the only case arising
here: `_resolve` joins a directory with a key remainder). -/
def pathJoin (dir rest : String) : String :=
  if rest = "" then dir else dir ++ "/" ++ rest

/-- `LocalStorage._resolve` (`app/storage.py`): `videos/`-keys go under
`video_dir`, `reports/`-keys under `report_dir`, anything else is treated
as a report name under `report_dir`. -/
def local_resolve (st : LocalState) (key : String) : String :=
  if strStartsWith key "videos/" then pathJoin st.video_dir (strDropChars key 7)
  else if strStartsWith key "reports/" then pathJoin st.report_dir (strDropChars key 8)
  else pathJoin st.report_dir key

/-- `LocalStorage.save_video_bytes`: resolve `f"videos/{key}"`, write the
bytes there, return `str(path)`. -/
def local_save_video_bytes (st : LocalState) (key : String) (data : List Nat) :
    LocalState × String :=
  let path := local_resolve st ("videos/" ++ key)
  ({ st with files := (path, data) :: st.files }, path)

/-- `LocalStorage.save_report_bytes`: resolve `f"reports/{key}"`, write
the bytes there, return `str(path)` (the content type is unused). -/
def local_save_report_bytes (st : LocalState) (key : String) (data : List Nat)
    (_content_type : String) : LocalState × String :=
  let path := local_resolve st ("reports/" ++ key)
  ({ st with files := (path, data) :: st.files }, path)

/-- `LocalStorage.open_bytes`: resolve the key and read the file, failing
(`none`) when no such file was written. -/
def local_open_bytes (st : LocalState) (key : String) : Option (List Nat) :=
  assocLookup st.files (local_resolve st key)

/-- The state of a `DetaStorage` instance: the `"videos"` and `"reports"`
drives (key ↦ content). -/
structure DetaState where
  videos : List (String × List Nat)
  reports : List (String × List Nat)
deriving DecidableEq, Repr

/-- Deta `Drive.put(key, data)`. -/
def drivePut (drive : List (String × List Nat)) (key : String) (data : List Nat) :
    List (String × List Nat) :=
  (key, data) :: drive

/-- Deta `Drive.get(name)` followed by `stream.read()`; `none` when the
name is absent from the drive. -/
def driveGet (drive : List (String × List Nat)) (name : String) : Option (List Nat) :=
  assocLookup drive name

/-- `DetaStorage.save_video_bytes`: put under the `videos` drive, return
`f"videos/{key}"`. -/
def deta_save_video_bytes (st : DetaState) (key : String) (data : List Nat) :
    DetaState × String :=
  ({ st with videos := drivePut st.videos key data }, "videos/" ++ key)

/-- `DetaStorage.save_report_bytes`: put under the `reports` drive, return
`f"reports/{key}"` (the content type is unused). -/
def deta_save_report_bytes (st : DetaState) (key : String) (data : List Nat)
    (_content_type : String) : DetaState × String :=
  ({ st with reports := drivePut st.reports key data }, "reports/" ++ key)

/-- Python `key.split("/", 1)` when `"/" in key`: the characters before
the first `'/'` and those after it; `none` when the key has no slash. -/
def splitFirstSlash : List Char → Option (List Char × List Char)
  | [] => none
  | c :: rest =>
    if c = '/' then some ([], rest)
    else (splitFirstSlash rest).map (fun p => (c :: p.1, p.2))

/-- `DetaStorage.open_bytes` (`app/storage.py`):
`drive, name = key.split("/", 1) if "/" in key else ("reports", key)`;
`bucket = self.reports if drive == "reports" else self.videos`. -/
def deta_open_bytes (st : DetaState) (key : String) : Option (List Nat) :=
  let dn : String × String :=
    match splitFirstSlash key.data with
    | some p => (String.mk p.1, String.mk p.2)
    | none => ("reports", key)
  if dn.1 = "reports" then driveGet st.reports dn.2 else driveGet st.videos dn.2

/-! ## The sessions collection and its operations (`app/main.py`) -/

/-- A session document as stored in the Mongo `sessions` collection. -/
structure SessionDoc where
  candidate_name : String
  start_time : Int
  end_time : Option Int
  video_path : Option String
deriving DecidableEq, Repr

/-- The sessions collection: `_id` ↦ document. -/
def SessionStore : Type := List (String × SessionDoc)

/-- `update_one({"_id": sid}, {"$set": ...})`: update the (unique) first
document with the given id. -/
def updateFirst : List (String × SessionDoc) → String → (SessionDoc → SessionDoc) →
    List (String × SessionDoc)
  | [], _, _ => []
  | (k, d) :: rest, sid, f =>
    if k = sid then (k, f d) :: rest else (k, d) :: updateFirst rest sid f

/-- `POST /sessions/{id}/end` (`end_session`, `app/main.py`): 404 when the
session is absent; otherwise set `end_time` to the current time only when
it is still unset, and answer with the (possibly updated) document. The
pair is the resulting collection and the HTTP outcome (error status or
response document). -/
def end_session (store : SessionStore) (sid : String) (now : Int) :
    SessionStore × Except Nat SessionDoc :=
  match assocLookup store sid with
  | none => (store, .error 404)
  | some doc =>
    if doc.end_time = none then
      (updateFirst store sid (fun d => { d with end_time := some now }),
       .ok { doc with end_time := some now })
    else (store, .ok doc)

/-- `POST /sessions` (`create_session`, `app/main.py`): insert a fresh
document with the given id, the candidate name, `start_time = utcnow()`,
and no end time or video path; the document store rejects a duplicate
`_id`. -/
def create_session (store : SessionStore) (sid : String) (name : String) (now : Int) :
    SessionStore × Except Nat SessionDoc :=
  if (assocLookup store sid).isSome then (store, .error 409)
  else ((sid, ⟨name, now, none, none⟩) :: store, .ok ⟨name, now, none, none⟩)

/-- `POST /sessions/{id}/video` (`upload_video`, `app/main.py`), and
identically `import_video`: 404 when the session is absent, otherwise set
only `video_path` to the storage reference. -/
def upload_video (store : SessionStore) (sid : String) (ref : String) :
    SessionStore × Except Nat SessionDoc :=
  match assocLookup store sid with
  | none => (store, .error 404)
  | some doc =>
    (updateFirst store sid (fun d => { d with video_path := some ref }),
     .ok { doc with video_path := some ref })

lemma stepEvent_mkCounts (fl la nf mf pd nd dd : Nat) (e : Event) :
    stepEvent (mkCounts fl la nf mf pd nd dd) e =
      if e.event_type = "focus_lost" then mkCounts (fl + 1) la nf mf pd nd dd
      else if e.event_type = "looking_away" then mkCounts fl (la + 1) nf mf pd nd dd
      else if e.event_type = "no_face" then mkCounts fl la (nf + 1) mf pd nd dd
      else if e.event_type = "multiple_faces" then mkCounts fl la nf (mf + 1) pd nd dd
      else if e.event_type = "phone_detected" then mkCounts fl la nf mf (pd + 1) nd dd
      else if e.event_type = "notes_detected" then mkCounts fl la nf mf pd (nd + 1) dd
      else if e.event_type = "device_detected" then mkCounts fl la nf mf pd nd (dd + 1)
      else mkCounts fl la nf mf pd nd dd := by
  by_cases h1 : e.event_type = "focus_lost"
  · simp [stepEvent, hasKey, mkCounts, incrKey, assocLookup, h1]
  by_cases h2 : e.event_type = "looking_away"
  · simp [stepEvent, hasKey, mkCounts, incrKey, assocLookup, h1, h2]
  by_cases h3 : e.event_type = "no_face"
  · simp [stepEvent, hasKey, mkCounts, incrKey, assocLookup, h1, h2, h3]
  by_cases h4 : e.event_type = "multiple_faces"
  · simp [stepEvent, hasKey, mkCounts, incrKey, assocLookup, h1, h2, h3, h4]
  by_cases h5 : e.event_type = "phone_detected"
  · simp [stepEvent, hasKey, mkCounts, incrKey, assocLookup, h1, h2, h3, h4, h5]
  by_cases h6 : e.event_type = "notes_detected"
  · simp [stepEvent, hasKey, mkCounts, incrKey, assocLookup, h1, h2, h3, h4, h5, h6]
  by_cases h7 : e.event_type = "device_detected"
  · simp [stepEvent, hasKey, mkCounts, incrKey, assocLookup, h1, h2, h3, h4, h5, h6, h7]
  · simp [stepEvent, hasKey, mkCounts, assocLookup, h1, h2, h3, h4, h5, h6, h7,
      Ne.symm h1, Ne.symm h2, Ne.symm h3, Ne.symm h4, Ne.symm h5, Ne.symm h6, Ne.symm h7]

/-- Closed form of `summarize_events`: each category's count is the number
of events of exactly that type. -/
lemma summarize_events_closed (events : List Event) :
    summarize_events events =
      mkCounts (typeCount events "focus_lost") (typeCount events "looking_away")
        (typeCount events "no_face") (typeCount events "multiple_faces")
        (typeCount events "phone_detected") (typeCount events "notes_detected")
        (typeCount events "device_detected") := by
  induction events using List.reverseRecOn with
  | nil => simp [summarize_events, typeCount, initCounts, mkCounts]
  | append_singleton es e ih =>
    have hfold : summarize_events (es ++ [e]) = stepEvent (summarize_events es) e := by
      simp [summarize_events]
    rw [hfold, ih, stepEvent_mkCounts]
    have hcount : ∀ tag : String,
        typeCount (es ++ [e]) tag =
          typeCount es tag + (if e.event_type = tag then 1 else 0) := by
      intro tag
      simp [typeCount, List.countP_append, List.countP_cons]
    by_cases h1 : e.event_type = "focus_lost"
    · simp [hcount, h1]
    by_cases h2 : e.event_type = "looking_away"
    · simp [hcount, h1, h2]
    by_cases h3 : e.event_type = "no_face"
    · simp [hcount, h1, h2, h3]
    by_cases h4 : e.event_type = "multiple_faces"
    · simp [hcount, h1, h2, h3, h4]
    by_cases h5 : e.event_type = "phone_detected"
    · simp [hcount, h1, h2, h3, h4, h5]
    by_cases h6 : e.event_type = "notes_detected"
    · simp [hcount, h1, h2, h3, h4, h5, h6]
    by_cases h7 : e.event_type = "device_detected"
    · simp [hcount, h1, h2, h3, h4, h5, h6, h7]
    · simp [hcount, h1, h2, h3, h4, h5, h6, h7]

/-- Subtracting each mapped value in a left fold is subtracting the sum. -/
lemma foldl_sub_eq_sub_sum (f : String × Nat → Int) :
    ∀ (l : Counts) (a : Int),
      l.foldl (fun score p => score - f p) a = a - (l.map f).sum
  | [], a => by simp
  | p :: rest, a => by
    rw [List.foldl_cons, foldl_sub_eq_sub_sum f rest (a - f p)]
    simp [List.sum_cons]
    ring

/-- `compute_integrity_score` as a clamped weighted sum over the entries
of the counts mapping. -/
lemma compute_integrity_score_eq (counts : Counts) :
    compute_integrity_score counts =
      max 0 (100 - (counts.map (fun p => (p.2 : Int) * (eventWeight p.1 : Int))).sum) := by
  unfold compute_integrity_score
  rw [foldl_sub_eq_sub_sum]

/-- C1: `compute_integrity_score` returns `max(0, 100 − Σ count × weight)`
over the entries of the counts mapping with the fixed weight table, and in
particular counts `{focus_lost: 2, phone_detected: 1, others 0}` score 86,
and 25 `multiple_faces` events score 0. -/
theorem C1_integrity_score_formula :
    (∀ counts : Counts,
      compute_integrity_score counts =
        max 0 (100 - (counts.map (fun p => (p.2 : Int) * (eventWeight p.1 : Int))).sum)) ∧
    compute_integrity_score (mkCounts 2 0 0 0 1 0 0) = 86 ∧
    compute_integrity_score (mkCounts 0 0 0 25 0 0 0) = 0 := by
  refine ⟨compute_integrity_score_eq, ?_, ?_⟩ <;> rfl

lemma indicator_sum_eq_mem (ty : String) :
    ((if ty = "focus_lost" then 1 else 0) + (if ty = "looking_away" then 1 else 0) +
      (if ty = "no_face" then 1 else 0) + (if ty = "multiple_faces" then 1 else 0) +
      (if ty = "phone_detected" then 1 else 0) + (if ty = "notes_detected" then 1 else 0) +
      (if ty = "device_detected" then 1 else 0) : Nat) =
      if ty ∈ categoryTags then 1 else 0 := by
  by_cases h : ty ∈ categoryTags
  · simp only [categoryTags, List.mem_cons, List.not_mem_nil, or_false] at h
    rcases h with rfl | rfl | rfl | rfl | rfl | rfl | rfl <;> decide
  · have h' := h
    simp only [categoryTags, List.mem_cons, List.not_mem_nil, or_false, not_or] at h'
    obtain ⟨n1, n2, n3, n4, n5, n6, n7⟩ := h'
    simp [h, n1, n2, n3, n4, n5, n6, n7]

lemma typeCount_sum_eq_countP_mem (events : List Event) :
    typeCount events "focus_lost" + typeCount events "looking_away" +
      typeCount events "no_face" + typeCount events "multiple_faces" +
      typeCount events "phone_detected" + typeCount events "notes_detected" +
      typeCount events "device_detected" =
      events.countP (fun e => e.event_type ∈ categoryTags) := by
  induction events with
  | nil => simp [typeCount]
  | cons e rest ih =>
    have hstep : ∀ tag : String,
        typeCount (e :: rest) tag =
          typeCount rest tag + (if e.event_type = tag then 1 else 0) := by
      intro tag
      simp only [typeCount, List.countP_cons]
      by_cases hh : e.event_type = tag <;> simp [hh]
    rw [hstep "focus_lost", hstep "looking_away", hstep "no_face",
      hstep "multiple_faces", hstep "phone_detected", hstep "notes_detected",
      hstep "device_detected"]
    have hsum := indicator_sum_eq_mem e.event_type
    have hcons : List.countP (fun e => decide (e.event_type ∈ categoryTags)) (e :: rest) =
        List.countP (fun e => decide (e.event_type ∈ categoryTags)) rest +
          (if e.event_type ∈ categoryTags then 1 else 0) := by
      by_cases h : e.event_type ∈ categoryTags <;> simp [List.countP_cons, h]
    rw [hcons]
    omega

/-- C4: `summarize_events` returns a mapping whose keys are exactly the 7
fixed category tags, the sum of its values is at most the number of input
events, and equality holds iff every event's type is one of the 7 tags. -/
theorem C4_summarize_keys_sum_bound (events : List Event) :
    countsKeys (summarize_events events) = categoryTags ∧
    sumCounts (summarize_events events) ≤ events.length ∧
    (sumCounts (summarize_events events) = events.length ↔
      ∀ e ∈ events, e.event_type ∈ categoryTags) := by
  rw [summarize_events_closed]
  refine ⟨by simp [countsKeys, mkCounts, categoryTags], ?_, ?_⟩
  · have h : sumCounts (mkCounts (typeCount events "focus_lost")
        (typeCount events "looking_away") (typeCount events "no_face")
        (typeCount events "multiple_faces") (typeCount events "phone_detected")
        (typeCount events "notes_detected") (typeCount events "device_detected")) =
        events.countP (fun e => e.event_type ∈ categoryTags) := by
      rw [← typeCount_sum_eq_countP_mem]
      simp [sumCounts, mkCounts]
      omega
    rw [h]
    exact events.countP_le_length _
  · have h : sumCounts (mkCounts (typeCount events "focus_lost")
        (typeCount events "looking_away") (typeCount events "no_face")
        (typeCount events "multiple_faces") (typeCount events "phone_detected")
        (typeCount events "notes_detected") (typeCount events "device_detected")) =
        events.countP (fun e => e.event_type ∈ categoryTags) := by
      rw [← typeCount_sum_eq_countP_mem]
      simp [sumCounts, mkCounts]
      omega
    rw [h, List.countP_eq_length]
    simp

/-- C6: the integrity score lies in `[0, 100]` for every counts mapping
with (necessarily non-negative) natural-number values, and is
non-increasing when a single category's count increases with all other
entries held equal. -/
theorem C6_score_bounds_and_monotone :
    (∀ counts : Counts,
      0 ≤ compute_integrity_score counts ∧ compute_integrity_score counts ≤ 100) ∧
    (∀ (l₁ l₂ : List (String × Nat)) (k : String) (v v' : Nat), v ≤ v' →
      compute_integrity_score (l₁ ++ (k, v') :: l₂) ≤
        compute_integrity_score (l₁ ++ (k, v) :: l₂)) := by
  constructor
  · intro counts
    rw [compute_integrity_score_eq]
    have hS : 0 ≤ (counts.map (fun p => (p.2 : Int) * (eventWeight p.1 : Int))).sum := by
      apply List.sum_nonneg
      intro x hx
      obtain ⟨p, _, rfl⟩ := List.mem_map.1 hx
      positivity
    exact ⟨le_max_left _ _, max_le (by norm_num) (by linarith)⟩
  · intro l₁ l₂ k v v' hv
    rw [compute_integrity_score_eq, compute_integrity_score_eq]
    simp only [List.map_append, List.map_cons, List.sum_append, List.sum_cons]
    have hm : (v : Int) * (eventWeight k : Int) ≤ (v' : Int) * (eventWeight k : Int) := by
      have : (v : Int) ≤ (v' : Int) := by exact_mod_cast hv
      exact mul_le_mul_of_nonneg_right this (by positivity)
    apply max_le_max le_rfl
    linarith

/-- C6 witness: increasing `focus_lost` from 1 to 3 does not increase the
score. -/
theorem C6_witness :
    compute_integrity_score
      ([] ++ ("focus_lost", 3) :: [("looking_away", 0), ("no_face", 0),
        ("multiple_faces", 0), ("phone_detected", 0), ("notes_detected", 0),
        ("device_detected", 0)]) ≤
    compute_integrity_score
      ([] ++ ("focus_lost", 1) :: [("looking_away", 0), ("no_face", 0),
        ("multiple_faces", 0), ("phone_detected", 0), ("notes_detected", 0),
        ("device_detected", 0)]) :=
  C6_score_bounds_and_monotone.2 []
    [("looking_away", 0), ("no_face", 0), ("multiple_faces", 0),
     ("phone_detected", 0), ("notes_detected", 0), ("device_detected", 0)]
    "focus_lost" 1 3 (by decide)

/-- C7: `summarize_events` is invariant under permutation of its input —
the order of the event sequence does not affect the resulting counts.
(Purity holds by construction: the embedding is a total function of its
input.) -/
theorem C7_summarize_order_irrelevant (l₁ l₂ : List Event) (h : l₁.Perm l₂) :
    summarize_events l₁ = summarize_events l₂ := by
  rw [summarize_events_closed, summarize_events_closed]
  have hc : ∀ tag : String, typeCount l₁ tag = typeCount l₂ tag := by
    intro tag
    exact h.countP_eq _
  simp [hc]

/-- C7 witness: swapping two concrete events yields the same counts. -/
theorem C7_witness :
    summarize_events
      [⟨none, "s", "focus_lost", none, 0⟩, ⟨none, "s", "phone_detected", none, 1⟩] =
    summarize_events
      [⟨none, "s", "phone_detected", none, 1⟩, ⟨none, "s", "focus_lost", none, 0⟩] :=
  C7_summarize_order_irrelevant _ _
    (List.Perm.swap (⟨none, "s", "phone_detected", none, 1⟩ : Event)
      (⟨none, "s", "focus_lost", none, 0⟩ : Event) [])

/-- C9: the aggregate suspicious count is the sum of exactly the four
counts `multiple_faces + phone_detected + notes_detected +
device_detected`; on summarized events it counts exactly the events of
those four types, and the three excluded categories still carry positive
integrity-score weights. -/
theorem C9_suspicious_count_aggregate :
    (∀ counts : Counts, suspiciousTotal counts =
      getCount counts "multiple_faces" + getCount counts "phone_detected" +
        getCount counts "notes_detected" + getCount counts "device_detected") ∧
    (∀ events : List Event, suspiciousTotal (summarize_events events) =
      typeCount events "multiple_faces" + typeCount events "phone_detected" +
        typeCount events "notes_detected" + typeCount events "device_detected") ∧
    0 < eventWeight "looking_away" ∧ 0 < eventWeight "focus_lost" ∧
      0 < eventWeight "no_face" := by
  refine ⟨fun _ => rfl, ?_, by decide, by decide, by decide⟩
  intro events
  rw [summarize_events_closed]
  rfl

/-- C5: the reported duration is 0 when `end_time` is null, otherwise
(for valid sessions, `start ≤ end`) it is `floor(end − start)` in whole
seconds and non-negative; the HTML-report computation and the API
computation agree, and `end = start + 125 s` gives 125. -/
theorem C5_duration_computation (s : Session) :
    (s.end_time = none → report_duration_seconds s = 0) ∧
    (∀ en : Int, s.end_time = some en → s.start_time ≤ en →
      report_duration_seconds s = Int.fdiv (en - s.start_time) 1000000 ∧
        0 ≤ report_duration_seconds s) ∧
    api_duration_seconds (some s.start_time) s.end_time = report_duration_seconds s ∧
    (∀ t : Int, api_duration_seconds (some t) (some (t + 125 * 1000000)) = 125) := by
  refine ⟨?_, ?_, ?_, ?_⟩
  · intro h
    simp [report_duration_seconds, h]
  · intro en hen hle
    have hnn : (0 : Int) ≤ en - s.start_time := by linarith
    refine ⟨?_, ?_⟩
    · have hft : Int.fdiv (en - s.start_time) 1000000 =
          Int.tdiv (en - s.start_time) 1000000 :=
        Int.fdiv_eq_tdiv hnn (show (0 : Int) ≤ 1000000 by norm_num)
      simp [report_duration_seconds, hen, hft]
    · simp only [report_duration_seconds, hen]
      exact Int.tdiv_nonneg hnn (by norm_num)
  · cases h : s.end_time <;>
      simp [report_duration_seconds, api_duration_seconds, h]
  · intro t
    show Int.tdiv (t + 125 * 1000000 - t) 1000000 = 125
    have h : t + 125 * 1000000 - t = 125000000 := by ring
    rw [h]
    decide

/-- C5 witness: a session starting at 0 and ending at 125 s has floor
duration 125 and a non-negative duration. -/
theorem C5_witness :
    report_duration_seconds ⟨none, "alice", 0, some 125000000, none⟩ =
      Int.fdiv (125000000 - 0) 1000000 ∧
    0 ≤ report_duration_seconds ⟨none, "alice", 0, some 125000000, none⟩ :=
  (C5_duration_computation ⟨none, "alice", 0, some 125000000, none⟩).2.1
    125000000 rfl (by decide)

/-- C3: the CSV report document is a header row plus one data row carrying
the candidate name, session id, duration, all 7 category counts, the
aggregate suspicious-event count and the integrity score. -/
theorem C3_csv_report_structure (session : Session) (counts : Counts) (score : Int) :
    2 ≤ (build_csv_report_content session counts score).length ∧
    (build_csv_report_content session counts score).head? =
      some ["candidate_name", "session_id", "interview_duration_seconds",
        "focus_lost_count", "looking_away_count", "no_face_count",
        "multiple_faces_count", "phone_detected_count", "notes_detected_count",
        "device_detected_count", "suspicious_events_count", "integrity_score"] ∧
    ∃ row, (build_csv_report_content session counts score)[1]? = some row ∧
      session.candidate_name ∈ row ∧
      session.id.getD "" ∈ row ∧
      toString (report_duration_seconds session) ∈ row ∧
      (∀ tag ∈ categoryTags, toString (getCount counts tag) ∈ row) ∧
      toString (suspiciousTotal counts) ∈ row ∧
      toString score ∈ row := by
  refine ⟨by simp [build_csv_report_content], rfl, _, rfl, ?_, ?_, ?_, ?_, ?_, ?_⟩
  · simp [build_csv_report_content]
  · simp [build_csv_report_content]
  · simp [build_csv_report_content]
  · intro tag htag
    simp only [categoryTags, List.mem_cons, List.not_mem_nil, or_false] at htag
    rcases htag with rfl | rfl | rfl | rfl | rfl | rfl | rfl <;>
      simp [build_csv_report_content]
  · simp [build_csv_report_content]
  · simp [build_csv_report_content]

lemma string_mk_data (s : String) : String.mk s.data = s := rfl

lemma splitFirstSlash_of_no_slash (l : List Char) (h : '/' ∉ l) :
    splitFirstSlash l = none := by
  induction l with
  | nil => rfl
  | cons c rest ih =>
    have hc : ¬ c = '/' := fun hh => h (hh ▸ List.mem_cons_self c rest)
    simp [splitFirstSlash, hc, ih (fun hr => h (List.mem_cons_of_mem c hr))]

lemma splitFirstSlash_append (p rest : List Char) (hp : '/' ∉ p) :
    splitFirstSlash (p ++ '/' :: rest) = some (p, rest) := by
  induction p with
  | nil => simp [splitFirstSlash]
  | cons c cs ih =>
    have hc : ¬ c = '/' := fun hh => hp (hh ▸ List.mem_cons_self c cs)
    have ih' := ih (fun hr => hp (List.mem_cons_of_mem c hr))
    simp [splitFirstSlash, hc, ih']

/-- `DetaStorage.open_bytes` on a key of the form `p ++ "/" ++ rest` with
a slash-free head `p` routes to the reports drive exactly when
`p = "reports"`, and to the videos drive otherwise. -/
lemma deta_open_concat (st : DetaState) (p rest : String) (hp : '/' ∉ p.data) :
    deta_open_bytes st (p ++ "/" ++ rest) =
      if p = "reports" then driveGet st.reports rest else driveGet st.videos rest := by
  have hdata : (p ++ "/" ++ rest).data = p.data ++ '/' :: rest.data := by
    rw [String.data_append, String.data_append, List.append_assoc]
    rfl
  unfold deta_open_bytes
  rw [hdata, splitFirstSlash_append p.data rest.data hp]

/-- C2 counterexample: on the local backend (with the configured relative
directories of `app/main.py`), opening the reference returned by
`save_video_bytes("k", bytes([1]))` does not return the data — the
returned path re-resolves under the report directory and the read fails. -/
theorem C2_counterexample :
    local_open_bytes
        (local_save_video_bytes ⟨"data/videos", "data/reports", []⟩ "k" [1]).1
        (local_save_video_bytes ⟨"data/videos", "data/reports", []⟩ "k" [1]).2 ≠
      some [1] := by
  decide

/-- C2 (amended): the storage round-trip `open(save(key, data)) == data`
holds for the Deta backend on the returned reference, for every key and
every byte string including the empty one; on the local backend it holds
when `open_bytes` is applied to the namespaced logical key
(`videos/{key}` resp. `reports/{key}`), not to the returned reference. -/
theorem C2_roundtrip_amended :
    (∀ (st : DetaState) (key : String) (data : List Nat),
      deta_open_bytes (deta_save_video_bytes st key data).1
        (deta_save_video_bytes st key data).2 = some data) ∧
    (∀ (st : DetaState) (key : String) (data : List Nat) (ct : String),
      deta_open_bytes (deta_save_report_bytes st key data ct).1
        (deta_save_report_bytes st key data ct).2 = some data) ∧
    (∀ (st : LocalState) (key : String) (data : List Nat),
      local_open_bytes (local_save_video_bytes st key data).1
        ("videos/" ++ key) = some data) ∧
    (∀ (st : LocalState) (key : String) (data : List Nat) (ct : String),
      local_open_bytes (local_save_report_bytes st key data ct).1
        ("reports/" ++ key) = some data) := by
  refine ⟨?_, ?_, ?_, ?_⟩
  · intro st key data
    show deta_open_bytes { st with videos := drivePut st.videos key data }
        ("videos" ++ "/" ++ key) = some data
    rw [deta_open_concat _ _ _ (by decide), if_neg (by decide)]
    simp [driveGet, drivePut, assocLookup]
  · intro st key data ct
    show deta_open_bytes { st with reports := drivePut st.reports key data }
        ("reports" ++ "/" ++ key) = some data
    rw [deta_open_concat _ _ _ (by decide), if_pos rfl]
    simp [driveGet, drivePut, assocLookup]
  · intro st key data
    show assocLookup ((local_resolve st ("videos/" ++ key), data) :: st.files)
        (local_resolve st ("videos/" ++ key)) = some data
    simp [assocLookup]
  · intro st key data ct
    show assocLookup ((local_resolve st ("reports/" ++ key), data) :: st.files)
        (local_resolve st ("reports/" ++ key)) = some data
    simp [assocLookup]

/-- C10: on the Deta backend, `open_bytes` routes a key `p/rest` whose
head `p` is not exactly `"reports"` to the videos drive (so an
unrecognised head such as `"foo"` reads from videos), routes
`reports/rest` to the reports drive, and only slash-free keys default to
the reports drive under the full key. -/
theorem C10_deta_open_routing :
    (∀ (st : DetaState) (p rest : String), '/' ∉ p.data → p ≠ "reports" →
      deta_open_bytes st (p ++ "/" ++ rest) = driveGet st.videos rest) ∧
    (∀ (st : DetaState) (rest : String),
      deta_open_bytes st ("reports/" ++ rest) = driveGet st.reports rest) ∧
    (∀ (st : DetaState) (key : String), '/' ∉ key.data →
      deta_open_bytes st key = driveGet st.reports key) := by
  refine ⟨?_, ?_, ?_⟩
  · intro st p rest hp hne
    rw [deta_open_concat st p rest hp, if_neg hne]
  · intro st rest
    show deta_open_bytes st ("reports" ++ "/" ++ rest) = driveGet st.reports rest
    rw [deta_open_concat st "reports" rest (by decide), if_pos rfl]
  · intro st key hk
    simp [deta_open_bytes, splitFirstSlash_of_no_slash key.data hk]

/-- C10 witness: with `name ↦ [7]` in the videos drive and `name ↦ [9]`
in the reports drive, opening `"foo/name"` reads `[7]` from the videos
drive. -/
theorem C10_witness :
    deta_open_bytes ⟨[("name", [7])], [("name", [9])]⟩ ("foo" ++ "/" ++ "name") =
      some [7] := by
  rw [C10_deta_open_routing.1 ⟨[("name", [7])], [("name", [9])]⟩ "foo" "name"
    (by decide) (by decide)]
  rfl

lemma assocLookup_updateFirst (sid s : String) (f : SessionDoc → SessionDoc)
    (store : List (String × SessionDoc)) :
    assocLookup (updateFirst store sid f) s =
      if s = sid then (assocLookup store s).map f else assocLookup store s := by
  induction store with
  | nil => simp [updateFirst, assocLookup]
  | cons p rest ih =>
    obtain ⟨k, d⟩ := p
    by_cases hk : k = sid
    · subst hk
      by_cases hs : k = s
      · subst hs
        simp [updateFirst, assocLookup]
      · have hs' : ¬ s = k := fun h => hs h.symm
        simp [updateFirst, assocLookup, hs, hs']
    · by_cases hs : k = s
      · have hs' : ¬ s = sid := fun h => hk (hs.trans h)
        simp [updateFirst, assocLookup, hk, hs, hs']
      · simp [updateFirst, assocLookup, hk, hs, ih]

/-- C8: `end_session` answers 404 and leaves the collection unchanged when
the session is absent; it sets `end_time` only when unset; when `end_time`
is already set it changes nothing (idempotence); and no operation on the
sessions collection — a later `end_session`, `create_session`, or
`upload_video`/`import_video` — ever changes an already-set `end_time`. -/
theorem C8_end_session_idempotent :
    (∀ (store : SessionStore) (sid : String) (now : Int),
      assocLookup store sid = none → end_session store sid now = (store, .error 404)) ∧
    (∀ (store : SessionStore) (sid : String) (now : Int) (d : SessionDoc),
      assocLookup store sid = some d → d.end_time = none →
        assocLookup (end_session store sid now).1 sid =
          some { d with end_time := some now }) ∧
    (∀ (store : SessionStore) (sid : String) (now : Int) (d : SessionDoc) (t : Int),
      assocLookup store sid = some d → d.end_time = some t →
        end_session store sid now = (store, .ok d)) ∧
    (∀ (store : SessionStore) (sid sid' : String) (now : Int) (d : SessionDoc) (t : Int),
      assocLookup store sid = some d → d.end_time = some t →
        (assocLookup (end_session store sid' now).1 sid).map SessionDoc.end_time =
          some (some t)) ∧
    (∀ (store : SessionStore) (sid sid' name : String) (now : Int)
        (d : SessionDoc) (t : Int),
      assocLookup store sid = some d → d.end_time = some t →
        (assocLookup (create_session store sid' name now).1 sid).map SessionDoc.end_time =
          some (some t)) ∧
    (∀ (store : SessionStore) (sid sid' ref : String) (d : SessionDoc) (t : Int),
      assocLookup store sid = some d → d.end_time = some t →
        (assocLookup (upload_video store sid' ref).1 sid).map SessionDoc.end_time =
          some (some t)) := by
  refine ⟨?_, ?_, ?_, ?_, ?_, ?_⟩
  · intro store sid now h
    simp [end_session, h]
  · intro store sid now d hd hend
    simp [end_session, hd, hend, assocLookup_updateFirst]
  · intro store sid now d t hd hend
    simp [end_session, hd, hend]
  · intro store sid sid' now d t hd hend
    cases hl : assocLookup store sid' with
    | none => simp [end_session, hl, hd, hend]
    | some d' =>
      by_cases hnone : d'.end_time = none
      · have hne : ¬ sid = sid' := by
          intro hss
          subst hss
          rw [hl] at hd
          injection hd with hd
          subst hd
          rw [hend] at hnone
          simp at hnone
        simp [end_session, hl, hnone, assocLookup_updateFirst, hne, hd, hend]
      · simp [end_session, hl, hnone, hd, hend]
  · intro store sid sid' name now d t hd hend
    by_cases hdup : (assocLookup store sid').isSome
    · simp [create_session, hdup, hd, hend]
    · by_cases hss : sid' = sid
      · subst hss
        rw [hd] at hdup
        simp at hdup
      · simp [create_session, hdup, assocLookup, hss, hd, hend]
  · intro store sid sid' ref d t hd hend
    cases hl : assocLookup store sid' with
    | none => simp [upload_video, hl, hd, hend]
    | some d' =>
      simp only [upload_video, assocLookup_updateFirst, hl]
      by_cases hss : sid = sid'
      · subst hss
        rw [hl] at hd
        injection hd with hd
        subst hd
        simp [hl, hend]
      · simp [hss, hd, hend]

/-- C8 witness: ending an already-ended session changes neither the
collection nor the stored end time, and ending a missing session is a 404
leaving the collection unchanged. -/
theorem C8_witness :
    end_session [("s1", ⟨"alice", 0, some 5, none⟩)] "s1" 9 =
      ([("s1", ⟨"alice", 0, some 5, none⟩)], .ok ⟨"alice", 0, some 5, none⟩) ∧
    end_session [("s1", ⟨"alice", 0, some 5, none⟩)] "s2" 9 =
      ([("s1", ⟨"alice", 0, some 5, none⟩)], .error 404) :=
  ⟨C8_end_session_idempotent.2.2.1 [("s1", ⟨"alice", 0, some 5, none⟩)] "s1" 9
      ⟨"alice", 0, some 5, none⟩ 5 (by decide) rfl,
   C8_end_session_idempotent.1 [("s1", ⟨"alice", 0, some 5, none⟩)] "s2" 9 (by decide)⟩

end Proctoring
